import Mathlib

/-!
# Verification of the API gateway's admission and routing core

Shallow embedding of `src/middleware/auth.middleware.js` and the gateway
composition file of the `api-gateway-hibban` repository, together with
theorems settling the specification claims about the route classifier,
the JWT-verification middleware, the proxy path resolvers, the proxy
error handlers and the health endpoint.

JavaScript strings are embedded as Lean `String`; the JS string operations
used by the source (`startsWith`, `includes`, `replace` of the first
occurrence, `split` on a single character) are re-implemented on the
underlying character lists so that everything evaluates by kernel
reduction.  Timestamps (`new Date().toISOString()`) are real-time values
and are not part of any claim, so response bodies are modelled without
them.
-/

namespace Gateway

/-! ## JavaScript string primitives -/

/-- JS `s.startsWith(pre)`: character-level prefix test. -/
def jsStartsWith (s pre : String) : Bool :=
  pre.data.isPrefixOf s.data

/-- JS `s.includes(c)` for a single-character needle. -/
def jsIncludesChar (s : String) (c : Char) : Bool :=
  s.data.contains c

/-- Replace the first occurrence of `pat` in a character list (JS
`String.prototype.replace` with a string pattern replaces only the first
occurrence). -/
def replaceFirstList (pat repl : List Char) : List Char → List Char
  | [] => []
  | c :: cs =>
    if pat.isPrefixOf (c :: cs) then repl ++ (c :: cs).drop pat.length
    else c :: replaceFirstList pat repl cs

/-- JS `s.replace(pat, repl)` with a string pattern (first occurrence only). -/
def jsReplaceFirst (s pat repl : String) : String :=
  ⟨replaceFirstList pat.data repl.data s.data⟩

/-- Helper for `jsSplit`: accumulate the current field (reversed) while
scanning. -/
def jsSplitAux (sep : Char) : List Char → List Char → List (List Char)
  | [], acc => [acc.reverse]
  | c :: cs, acc =>
    if c == sep then acc.reverse :: jsSplitAux sep cs []
    else jsSplitAux sep cs (c :: acc)

/-- JS `s.split(sep)` for a single-character separator: splits at every
occurrence and keeps empty fields, e.g. `"a  b".split(" ") = ["a","","b"]`
and `"".split(" ") = [""]`. -/
def jsSplit (s : String) (sep : Char) : List String :=
  (jsSplitAux sep s.data []).map fun l => ⟨l⟩

/-- JS `a || b` on two possibly-undefined string values: the first operand
is returned when it is truthy (defined and non-empty), otherwise the second
operand is returned verbatim. -/
def jsOrOpt (a b : Option String) : Option String :=
  match a with
  | some s => if s = "" then b else some s
  | none => b

/-! ## RouteClassifier (`PUBLIC_ROUTES` / `isPublicRoute`) -/

/-- The configured public-route list (auth.middleware.js lines 11-18). -/
def PUBLIC_ROUTES : List String :=
  ["/api/auth/login",
   "/api/auth/register",
   "/api/auth/forgot-password",
   "/api/auth/reset-password",
   "/health",
   "/api"]

/-- The predicate tested for each entry inside `isPublicRoute`'s `some`
callback (auth.middleware.js lines 26-32): a route containing `*` matches
by string-prefix comparison against the route with its first `/*` removed;
any other route matches by equality or by being a string prefix of the
path. -/
def routeMatches (route path : String) : Bool :=
  if jsIncludesChar route '*' then
    jsStartsWith path (jsReplaceFirst route "/*" "")
  else
    path == route || jsStartsWith path route

/-- `isPublicRoute` generalised over the route list: `routes.some(...)`. -/
def isPublicRouteWith (routes : List String) (path : String) : Bool :=
  routes.any fun route => routeMatches route path

/-- `isPublicRoute(path)` (auth.middleware.js lines 25-33). -/
def isPublicRoute (path : String) : Bool :=
  isPublicRouteWith PUBLIC_ROUTES path

/-! ## Specification-side route matcher (for the refinement claim C3)

Modelled from the spec's words: a wildcard entry is one marked with a
trailing wildcard `/*`, and it matches via string-prefix comparison on the
wildcard's base (the entry with the trailing `/*` removed); an exact entry
matches via exact equality or via the path having the entry as a string
prefix. -/

/-- Spec-side test for a wildcard entry (trailing `/*` marker). -/
def specIsWildcard (route : String) : Bool :=
  ("/*").data.isSuffixOf route.data

/-- Spec-side base of a wildcard entry: the entry with the trailing `/*`
removed. -/
def specWildcardBase (route : String) : String :=
  ⟨route.data.take (route.data.length - 2)⟩

/-- Spec-side matcher for a single public-set entry. -/
def specEntryMatches (route path : String) : Bool :=
  if specIsWildcard route then jsStartsWith path (specWildcardBase route)
  else path == route || jsStartsWith path route

/-! ## Theorems about the route classifier -/

/-- C2: because the entry `/api` is in the public-route list and matching
is by string prefix, `isPublicRoute` returns `true` for every path that
starts with `/api` (including `/api` itself and every `/api/...` subpath),
so no path under `/api` is ever classified as protected. -/
theorem isPublicRoute_of_api_start (p : String)
    (h : jsStartsWith p "/api" = true) : isPublicRoute p = true := by
  unfold isPublicRoute isPublicRouteWith
  refine List.any_eq_true.mpr ⟨"/api", ?_, ?_⟩
  · simp [PUBLIC_ROUTES]
  · have hm : routeMatches "/api" p = (p == "/api" || jsStartsWith p "/api") := rfl
    rw [hm, h, Bool.or_true]

theorem isPublicRoute_of_api_start_witness :
    jsStartsWith "/api/iam/users" "/api" = true ∧
      isPublicRoute "/api/iam/users" = true :=
  ⟨by decide, isPublicRoute_of_api_start "/api/iam/users" (by decide)⟩

/-- C3: for every path `p`, `isPublicRoute p` is `true` exactly when some
entry of the configured public set matches `p`, where a wildcard entry
matches by string-prefix comparison on its base and an exact entry matches
by exact equality or by `p` having the entry as a string prefix; when no
entry matches, `isPublicRoute p` is `false` (the path defaults to
protected).  `isPublicRoute` is a total function, so it never fails. -/
theorem isPublicRoute_iff_specEntryMatches (p : String) :
    (isPublicRoute p = true ↔ ∃ r ∈ PUBLIC_ROUTES, specEntryMatches r p = true) ∧
      ((∀ r ∈ PUBLIC_ROUTES, specEntryMatches r p = false) →
        isPublicRoute p = false) := by
  have key : ∀ r ∈ PUBLIC_ROUTES, routeMatches r p = specEntryMatches r p := by
    intro r hr
    fin_cases hr <;> rfl
  constructor
  · constructor
    · intro hpub
      rcases List.any_eq_true.mp hpub with ⟨r, hr, hm⟩
      exact ⟨r, hr, (key r hr) ▸ hm⟩
    · rintro ⟨r, hr, hm⟩
      exact List.any_eq_true.mpr ⟨r, hr, (key r hr).symm ▸ hm⟩
  · intro hnone
    unfold isPublicRoute isPublicRouteWith
    refine List.any_eq_false.mpr ?_
    intro r hr
    rw [key r hr]
    simp [hnone r hr]

theorem isPublicRoute_iff_specEntryMatches_witness :
    isPublicRoute "/health/db" = true ∧ isPublicRoute "/admin" = false :=
  ⟨(isPublicRoute_iff_specEntryMatches "/health/db").1.mpr
      ⟨"/health", by simp [PUBLIC_ROUTES], by decide⟩,
    (isPublicRoute_iff_specEntryMatches "/admin").2 (by decide)⟩

/-! ## TokenVerifier / IdentityPropagator (`gatewayAuthMiddleware`)

The middleware (auth.middleware.js lines 41-108) is embedded as a pure
function over the request, parameterised by its two external
collaborators: `jwt.verify` (which either returns decoded claims or throws
an error whose only observable used by the code is whether its name is
`"TokenExpiredError"`) and `JSON.stringify` of the claims' `user` object
(which either returns a string, returns `undefined` when its argument is
`undefined`, or throws).  `process.env.JWT_SECRET` is a possibly-absent
string; JS truthiness makes the absent and the empty secret
indistinguishable at the `!jwtSecret` check, and likewise an empty
`authorization` header value is falsy at the `!authHeader` check. -/

/-- The nested `user` object of the decoded JWT claims; every field may be
absent.  `mongoId` embeds the JS field `_id` (leading-underscore names are
avoided in Lean). -/
structure UserClaims where
  id : Option String
  mongoId : Option String
  email : Option String
  userType : Option String
deriving DecidableEq

/-- Decoded JWT claims: the code only reads `decoded.user`, which may be
absent. -/
structure DecodedToken where
  user : Option UserClaims
deriving DecidableEq

/-- Outcome of `jwt.verify(token, secret)`: decoded claims, or a thrown
error that is either a `TokenExpiredError` or anything else (bad
signature, malformed token, ...). -/
inductive VerifyResult where
  | ok (decoded : DecodedToken)
  | tokenExpired
  | otherError
deriving DecidableEq

/-- The request headers the middleware reads and writes.  `authorization`
is the inbound credential header; the four `x-user-*` fields are the
identity headers injected for downstream services (a `none` value models
an absent / `undefined` header). -/
structure Headers where
  authorization : Option String
  xUserId : Option String
  xUserEmail : Option String
  xUserType : Option String
  xUserData : Option String
deriving DecidableEq

/-- An inbound request as seen by the middleware. -/
structure Request where
  path : String
  headers : Headers
deriving DecidableEq

/-- Middleware outcome: either `next()` with the (possibly header-updated)
request, or a terminal JSON response with a status code and message. -/
inductive MwOutcome where
  | next (req : Request)
  | respond (statusCode : Nat) (message : String)
deriving DecidableEq

/-- Whether a middleware outcome lets the request proceed to routing. -/
def MwOutcome.isNext : MwOutcome → Bool
  | .next _ => true
  | .respond _ _ => false

/-- `gatewayAuthMiddleware(req, res, next)` (auth.middleware.js lines
41-108).  `verify` models `jwt.verify`, `stringifyUser` models
`JSON.stringify(decoded.user)` (`.error` = it threw), `jwtSecret` models
`process.env.JWT_SECRET`.  A `JSON.stringify` throw is caught by the same
`catch` branch as a `jwt.verify` throw and — its error name not being
`"TokenExpiredError"` — produces the generic 401 response. -/
def gatewayAuthMiddleware (verify : String → String → VerifyResult)
    (stringifyUser : Option UserClaims → Except Unit (Option String))
    (jwtSecret : Option String) (req : Request) : MwOutcome :=
  if isPublicRoute req.path then .next req
  else
    match req.headers.authorization with
    | none => .respond 401 "Authentication required"
    | some authHeader =>
      if authHeader = "" then .respond 401 "Authentication required"
      else
        let parts := jsSplit authHeader ' '
        if parts.length ≠ 2 ∨ parts.headD "" ≠ "Bearer" then
          .respond 401 "Invalid authorization header format"
        else
          let token := parts.getD 1 ""
          if jwtSecret.getD "" = "" then
            .respond 500 "Server configuration error"
          else
            match verify token (jwtSecret.getD "") with
            | .tokenExpired => .respond 401 "Token has expired"
            | .otherError => .respond 401 "Invalid or expired token"
            | .ok decoded =>
              match stringifyUser decoded.user with
              | .error _ => .respond 401 "Invalid or expired token"
              | .ok userData =>
                .next { req with headers :=
                  { req.headers with
                    xUserId := jsOrOpt (decoded.user.bind UserClaims.id)
                      (decoded.user.bind UserClaims.mongoId)
                    xUserEmail := decoded.user.bind UserClaims.email
                    xUserType := decoded.user.bind UserClaims.userType
                    xUserData := userData } }

/-! ## Stub collaborators used by the concrete witnesses -/

/-- A concrete `jwt.verify` stand-in: the token `"expiredtok"` throws a
`TokenExpiredError`, the token `"goodtok"` decodes to the sample identity,
anything else throws a generic verification error. -/
def verifyStub : String → String → VerifyResult := fun token _s =>
  if token = "expiredtok" then .tokenExpired
  else if token = "goodtok" then
    .ok ⟨some ⟨some "u1", none, some "a@b.com", some "buyer"⟩⟩
  else .otherError

/-- A concrete `JSON.stringify` stand-in that always succeeds
(`JSON.stringify(undefined)` evaluates to `undefined`). -/
def stringifyStub : Option UserClaims → Except Unit (Option String)
  | none => .ok none
  | some _ => .ok (some "user-json-blob")

/-- A concrete `JSON.stringify` stand-in that throws. -/
def stringifyFailStub : Option UserClaims → Except Unit (Option String) :=
  fun _ => .error ()

/-- A request to the protected path `/admin` carrying a given
`authorization` header and no identity headers. -/
def protectedReq (auth : Option String) : Request :=
  ⟨"/admin", ⟨auth, none, none, none, none⟩⟩

/-! ## Theorems about the authentication middleware -/

/-- A header that splits into `["Bearer", t]` is in particular non-empty. -/
theorem jsSplit_bearer_ne_empty {h t : String}
    (hs : jsSplit h ' ' = ["Bearer", t]) : h ≠ "" := by
  intro he
  subst he
  have hnil : jsSplit "" ' ' = [""] := rfl
  rw [hnil] at hs
  injection hs with h1 _
  exact absurd h1 (by decide)

/-- C4: on a protected path, the middleware maps each authentication
failure to exactly the specified response: a missing `Authorization`
header yields 401 "Authentication required"; a non-empty header that is
not exactly two space-separated parts with first part `Bearer` yields 401
"Invalid authorization header format"; an expired token yields 401 "Token
has expired"; any other verification failure yields 401 with the distinct
message "Invalid or expired token". -/
theorem gatewayAuth_failure_mapping
    (verify : String → String → VerifyResult)
    (stringifyUser : Option UserClaims → Except Unit (Option String))
    (secret : Option String) :
    (∀ req, isPublicRoute req.path = false →
      req.headers.authorization = none →
      gatewayAuthMiddleware verify stringifyUser secret req =
        .respond 401 "Authentication required") ∧
    (∀ req h, isPublicRoute req.path = false →
      req.headers.authorization = some h → h ≠ "" →
      ((jsSplit h ' ').length ≠ 2 ∨ (jsSplit h ' ').headD "" ≠ "Bearer") →
      gatewayAuthMiddleware verify stringifyUser secret req =
        .respond 401 "Invalid authorization header format") ∧
    (∀ req h t s, isPublicRoute req.path = false →
      req.headers.authorization = some h →
      jsSplit h ' ' = ["Bearer", t] →
      secret = some s → s ≠ "" →
      verify t s = .tokenExpired →
      gatewayAuthMiddleware verify stringifyUser secret req =
        .respond 401 "Token has expired") ∧
    (∀ req h t s, isPublicRoute req.path = false →
      req.headers.authorization = some h →
      jsSplit h ' ' = ["Bearer", t] →
      secret = some s → s ≠ "" →
      verify t s = .otherError →
      gatewayAuthMiddleware verify stringifyUser secret req =
        .respond 401 "Invalid or expired token") := by
  refine ⟨?_, ?_, ?_, ?_⟩
  · intro req hprot hauth
    simp [gatewayAuthMiddleware, hprot, hauth]
  · intro req h hprot hauth hne hmal
    rcases hmal with hl | hh
    · simp [gatewayAuthMiddleware, hprot, hauth, hne, hl]
    · simp [gatewayAuthMiddleware, hprot, hauth, hne]
      intro hlen hhead
      exact absurd hhead (by simpa using hh)
  · intro req h t s hprot hauth hsplit hsec hs hv
    subst hsec
    have hne := jsSplit_bearer_ne_empty hsplit
    simp [gatewayAuthMiddleware, hprot, hauth, hne, hsplit, hs, hv]
  · intro req h t s hprot hauth hsplit hsec hs hv
    subst hsec
    have hne := jsSplit_bearer_ne_empty hsplit
    simp [gatewayAuthMiddleware, hprot, hauth, hne, hsplit, hs, hv]

theorem gatewayAuth_failure_mapping_witness :
    gatewayAuthMiddleware verifyStub stringifyStub (some "sec")
        (protectedReq none) = .respond 401 "Authentication required" ∧
    gatewayAuthMiddleware verifyStub stringifyStub (some "sec")
        (protectedReq (some "Basic xyz")) =
      .respond 401 "Invalid authorization header format" ∧
    gatewayAuthMiddleware verifyStub stringifyStub (some "sec")
        (protectedReq (some "Bearer expiredtok")) =
      .respond 401 "Token has expired" ∧
    gatewayAuthMiddleware verifyStub stringifyStub (some "sec")
        (protectedReq (some "Bearer badtok")) =
      .respond 401 "Invalid or expired token" := by
  refine ⟨?_, ?_, ?_, ?_⟩
  · exact (gatewayAuth_failure_mapping verifyStub stringifyStub (some "sec")).1
      (protectedReq none) (by decide) rfl
  · exact (gatewayAuth_failure_mapping verifyStub stringifyStub (some "sec")).2.1
      (protectedReq (some "Basic xyz")) "Basic xyz" (by decide) rfl (by decide)
      (by decide)
  · exact (gatewayAuth_failure_mapping verifyStub stringifyStub (some "sec")).2.2.1
      (protectedReq (some "Bearer expiredtok")) "Bearer expiredtok" "expiredtok"
      "sec" (by decide) rfl (by decide) rfl (by decide) (by decide)
  · exact (gatewayAuth_failure_mapping verifyStub stringifyStub (some "sec")).2.2.2
      (protectedReq (some "Bearer badtok")) "Bearer badtok" "badtok"
      "sec" (by decide) rfl (by decide) rfl (by decide) (by decide)

/-- C5: when the shared signing secret is not configured (absent or empty)
and the request reaches the secret check (protected path, well-formed
`Bearer` header), the middleware responds 500 "Server configuration
error", which differs from every 401 client authentication response. -/
theorem gatewayAuth_missing_secret
    (verify : String → String → VerifyResult)
    (stringifyUser : Option UserClaims → Except Unit (Option String)) :
    ∀ req h t, isPublicRoute req.path = false →
      req.headers.authorization = some h →
      jsSplit h ' ' = ["Bearer", t] →
      gatewayAuthMiddleware verify stringifyUser none req =
          .respond 500 "Server configuration error" ∧
        gatewayAuthMiddleware verify stringifyUser (some "") req =
          .respond 500 "Server configuration error" ∧
        ∀ m, MwOutcome.respond 500 "Server configuration error" ≠
          MwOutcome.respond 401 m := by
  intro req h t hprot hauth hsplit
  have hne := jsSplit_bearer_ne_empty hsplit
  refine ⟨?_, ?_, ?_⟩
  · simp [gatewayAuthMiddleware, hprot, hauth, hne, hsplit]
  · simp [gatewayAuthMiddleware, hprot, hauth, hne, hsplit]
  · intro m hEq
    injection hEq with h1 _
    exact absurd h1 (by decide)

theorem gatewayAuth_missing_secret_witness :
    gatewayAuthMiddleware verifyStub stringifyStub none
        (protectedReq (some "Bearer goodtok")) =
      .respond 500 "Server configuration error" ∧
    gatewayAuthMiddleware verifyStub stringifyStub (some "")
        (protectedReq (some "Bearer goodtok")) =
      .respond 500 "Server configuration error" := by
  have h := gatewayAuth_missing_secret verifyStub stringifyStub
    (protectedReq (some "Bearer goodtok")) "Bearer goodtok" "goodtok"
    (by decide) rfl (by decide)
  exact ⟨h.1, h.2.1⟩

/-- C6: for a validly signed, non-expired token decoding to
`user = {id, email, userType}` (with a truthy `id`) verified against a
configured secret, the middleware calls `next` and the propagated identity
headers `x-user-id`, `x-user-email`, `x-user-type` equal exactly the
token's `user.id`, `user.email`, `user.userType`. -/
theorem gatewayAuth_identity_propagation
    (verify : String → String → VerifyResult)
    (stringifyUser : Option UserClaims → Except Unit (Option String))
    (req : Request) (h t s : String) (u : UserClaims) (i e ty : String)
    (d : Option String) :
    isPublicRoute req.path = false →
    req.headers.authorization = some h →
    jsSplit h ' ' = ["Bearer", t] →
    s ≠ "" →
    verify t s = .ok ⟨some u⟩ →
    u.id = some i → i ≠ "" →
    u.email = some e → u.userType = some ty →
    stringifyUser (some u) = .ok d →
    gatewayAuthMiddleware verify stringifyUser (some s) req =
      .next { req with headers :=
        { req.headers with
          xUserId := some i
          xUserEmail := some e
          xUserType := some ty
          xUserData := d } } := by
  intro hprot hauth hsplit hs hv hid hine hemail hty hstr
  have hne := jsSplit_bearer_ne_empty hsplit
  simp [gatewayAuthMiddleware, hprot, hauth, hne, hsplit, hs, hv, hstr,
    jsOrOpt, hid, hine, hemail, hty]

theorem gatewayAuth_identity_propagation_witness :
    gatewayAuthMiddleware verifyStub stringifyStub (some "sec")
        (protectedReq (some "Bearer goodtok")) =
      .next ⟨"/admin", ⟨some "Bearer goodtok", some "u1", some "a@b.com",
        some "buyer", some "user-json-blob"⟩⟩ := by
  exact gatewayAuth_identity_propagation verifyStub stringifyStub
    (protectedReq (some "Bearer goodtok")) "Bearer goodtok" "goodtok" "sec"
    ⟨some "u1", none, some "a@b.com", some "buyer"⟩ "u1" "a@b.com" "buyer"
    (some "user-json-blob") (by decide) rfl (by decide) (by decide) rfl rfl
    (by decide) rfl rfl rfl

/-- C7 counterexample: with a serializer that throws on the verified
claims' user object, the middleware does not proceed with `x-user-data`
omitted; the throw is caught by the generic `catch` branch, which aborts
the request with 401 "Invalid or expired token".  The claim that the
request proceeds to routing (outcome `next`) is therefore false. -/
theorem gatewayAuth_stringify_failure_counterexample :
    (gatewayAuthMiddleware verifyStub stringifyFailStub (some "sec")
        (protectedReq (some "Bearer goodtok"))).isNext = false ∧
      gatewayAuthMiddleware verifyStub stringifyFailStub (some "sec")
          (protectedReq (some "Bearer goodtok")) =
        .respond 401 "Invalid or expired token" :=
  ⟨rfl, rfl⟩

/-- C7 (amended): if serialization of the verified claims' user object
fails during identity propagation, the failure is caught by the same
`catch` branch as token-verification failures and the request is aborted
with 401 "Invalid or expired token"; it does not proceed to routing. -/
theorem gatewayAuth_stringify_failure_aborts
    (verify : String → String → VerifyResult)
    (stringifyUser : Option UserClaims → Except Unit (Option String))
    (req : Request) (h t s : String) (decoded : DecodedToken) :
    isPublicRoute req.path = false →
    req.headers.authorization = some h →
    jsSplit h ' ' = ["Bearer", t] →
    s ≠ "" →
    verify t s = .ok decoded →
    stringifyUser decoded.user = .error () →
    gatewayAuthMiddleware verify stringifyUser (some s) req =
        .respond 401 "Invalid or expired token" ∧
      (gatewayAuthMiddleware verify stringifyUser (some s) req).isNext =
        false := by
  intro hprot hauth hsplit hs hv hstr
  have hne := jsSplit_bearer_ne_empty hsplit
  have hout : gatewayAuthMiddleware verify stringifyUser (some s) req =
      .respond 401 "Invalid or expired token" := by
    simp [gatewayAuthMiddleware, hprot, hauth, hne, hsplit, hs, hv, hstr]
  exact ⟨hout, by rw [hout]; rfl⟩

theorem gatewayAuth_stringify_failure_aborts_witness :
    gatewayAuthMiddleware verifyStub stringifyFailStub (some "sec")
        (protectedReq (some "Bearer goodtok")) =
      .respond 401 "Invalid or expired token" := by
  exact (gatewayAuth_stringify_failure_aborts verifyStub stringifyFailStub
    (protectedReq (some "Bearer goodtok")) "Bearer goodtok" "goodtok" "sec"
    ⟨some ⟨some "u1", none, some "a@b.com", some "buyer"⟩⟩ (by decide) rfl
    (by decide) (by decide) rfl rfl).1

/-! ## ProxyRouter (gateway composition file)

The gateway composition file mounts `express-http-proxy` instances at
`/api/authz`, `/api/iam` and `/api/inv`.  Express strips the mount path
before handing the request to the mounted middleware, so inside each proxy
`req.url` is the sub-path (plus query string) after the mount point; the
`proxyReqPathResolver` of each mount prepends the mount prefix back, and
the proxy library resolves the returned path against the configured
backend origin.  The proxy forwards the body untouched (there is no
request-body decorator in the source). -/

/-- `proxyReqPathResolver` of the `/api/authz` mount. -/
def authzProxyReqPathResolver (reqUrl : String) : String :=
  "/api/authz" ++ reqUrl

/-- `proxyReqPathResolver` of the `/api/iam` mount. -/
def iamProxyReqPathResolver (reqUrl : String) : String :=
  "/api/iam" ++ reqUrl

/-- `proxyReqPathResolver` of the `/api/inv` mount. -/
def invProxyReqPathResolver (reqUrl : String) : String :=
  "/api/inv" ++ reqUrl

/-- The `req.url` seen inside a middleware mounted at `mount`: the inbound
URL with the mount path stripped. -/
def expressMountSubUrl (mount url : String) : String :=
  ⟨url.data.drop mount.data.length⟩

/-- Express mount matching: a mounted middleware handles the request when
the inbound path equals the mount path or continues it at a `/` boundary. -/
def expressMountMatches (mount url : String) : Bool :=
  url == mount || jsStartsWith url (mount ++ "/")

/-- An inbound request as seen by a proxy mount: the mount-stripped URL
(path plus query string) and the raw body. -/
structure InboundRequest where
  url : String
  body : String
deriving DecidableEq

/-- The outbound request produced by a proxy mount: the absolute target
URL (backend origin plus resolved path) and the forwarded body. -/
structure ForwardedRequest where
  targetUrl : String
  body : String
deriving DecidableEq

/-- The `/api/authz` proxy mount: forwards to `origin` at the path
returned by `authzProxyReqPathResolver`, body untouched. -/
def forwardViaAuthzProxy (origin : String) (req : InboundRequest) :
    ForwardedRequest :=
  { targetUrl := origin ++ authzProxyReqPathResolver req.url
    body := req.body }

/-! ## Proxy error handlers -/

/-- A gateway-originated JSON error response written by a proxy error
handler (`status`/`message`/`error` fields; the timestamp is real time and
not modelled). -/
structure ProxyErrResponse where
  statusCode : Nat
  status : String
  message : String
  error : String
deriving DecidableEq

/-- The observable state of the Express response object: whether headers
have been sent, and the list of responses written so far. -/
structure ResState where
  headersSent : Bool
  written : List ProxyErrResponse
deriving DecidableEq

/-- Shared shape of the three `proxyErrorHandler` callbacks: if no
response has been sent yet, write one 500 response whose `message` names
the failing service and whose `error` field carries the triggering error's
message; otherwise do nothing. -/
def proxyErrorHandlerFor (serviceMessage errMessage : String)
    (res : ResState) : ResState :=
  if res.headersSent then res
  else { headersSent := true
         written := res.written ++
           [⟨500, "error", serviceMessage, errMessage⟩] }

/-- `proxyErrorHandler` of the `/api/authz` mount. -/
def authProxyErrorHandler (errMessage : String) (res : ResState) : ResState :=
  proxyErrorHandlerFor "Auth service unavailable" errMessage res

/-- `proxyErrorHandler` of the `/api/iam` mount. -/
def iamProxyErrorHandler (errMessage : String) (res : ResState) : ResState :=
  proxyErrorHandlerFor "IAM service unavailable" errMessage res

/-- `proxyErrorHandler` of the `/api/inv` mount. -/
def inventoryProxyErrorHandler (errMessage : String) (res : ResState) :
    ResState :=
  proxyErrorHandlerFor "Inventory service unavailable" errMessage res

/-! ## Health endpoint and gateway app composition -/

/-- The JSON body the health handler tries to build. -/
structure HealthBody where
  status : String
  service : String
  authUrl : String
  orderUrl : String
  kycUrl : String
deriving DecidableEq

/-- The module-level service-URL constants in scope in the composition
file: `AUTH_SERVICE_URL`, `IAM_SERVICE_URL` and `INVENTORY_SERVICE_URL`
are defined (lines 256-260); no other service-URL constant is. -/
def definedServiceConsts (authUrl iamUrl invUrl : String) :
    String → Option String := fun n =>
  if n = "AUTH_SERVICE_URL" then some authUrl
  else if n = "IAM_SERVICE_URL" then some iamUrl
  else if n = "INVENTORY_SERVICE_URL" then some invUrl
  else none

/-- Evaluating a variable reference in JS: an identifier that is not in
scope throws `ReferenceError: <name> is not defined`. -/
def refVar (scope : String → Option String) (n : String) :
    Except String String :=
  match scope n with
  | some v => .ok v
  | none => .error (n ++ " is not defined")

/-- The `/gateway/health` handler body (composition file lines 270-281):
it builds its `services` object from `AUTH_SERVICE_URL`,
`INVENTORY_SERVICE_URL` and `KYC_SERVICE_URL`, in that evaluation order. -/
def gatewayHealthHandler (scope : String → Option String) :
    Except String HealthBody := do
  let a ← refVar scope "AUTH_SERVICE_URL"
  let o ← refVar scope "INVENTORY_SERVICE_URL"
  let k ← refVar scope "KYC_SERVICE_URL"
  return ⟨"ok", "api-gateway", a, o, k⟩

/-- Outcome of the gateway app for one inbound request: the request is
forwarded to a named backend at a target URL, or a gateway-originated
response is sent. -/
inductive AppOutcome where
  | forwarded (service : String) (targetUrl : String)
  | responded (statusCode : Nat) (message : String)
deriving DecidableEq

/-- The gateway app's route dispatch (composition file lines 266-427),
in mount order: the `/gateway/health` GET handler (a thrown handler error
reaches the global error handler, which responds `err.status || 500` with
`err.message`), the three proxy mounts, the `/api` documentation GET
handler, and the catch-all 404 handler.  `gatewayAuthMiddleware` is
imported by the composition file but never mounted with `app.use`, so no
request passes through it: the dispatch does not depend on the
`authorization` header at all. -/
def gatewayApp (authUrl iamUrl invUrl : String) (method path : String)
    (authorization : Option String) : AppOutcome :=
  if method = "GET" ∧ path = "/gateway/health" then
    match gatewayHealthHandler (definedServiceConsts authUrl iamUrl invUrl) with
    | .ok body => .responded 200 body.status
    | .error m => .responded 500 m
  else if expressMountMatches "/api/authz" path then
    .forwarded "auth"
      (authUrl ++ authzProxyReqPathResolver (expressMountSubUrl "/api/authz" path))
  else if expressMountMatches "/api/iam" path then
    .forwarded "iam"
      (iamUrl ++ iamProxyReqPathResolver (expressMountSubUrl "/api/iam" path))
  else if expressMountMatches "/api/inv" path then
    .forwarded "inventory"
      (invUrl ++ invProxyReqPathResolver (expressMountSubUrl "/api/inv" path))
  else if method = "GET" ∧ path = "/api" then
    .responded 200 "ics API Gateway"
  else
    .responded 404 ("Route " ++ path ++ " not found")

/-! ## Theorems about routing, proxying and the health endpoint -/

/-- Stripping a mount path from a URL that extends it recovers the
sub-path. -/
theorem expressMountSubUrl_append (mount rest : String) :
    expressMountSubUrl mount (mount ++ rest) = rest := by
  unfold expressMountSubUrl
  show String.mk ((mount ++ rest).data.drop mount.data.length) = rest
  have hdata : (mount ++ rest).data = mount.data ++ rest.data := rfl
  rw [hdata, List.drop_left]

/-- C8: a request reaching the `/api/authz` mount is forwarded to the
backend origin with the mount prefix prepended to the sub-path received at
the mount point (nothing stripped, nothing substituted) and the body
untouched; in particular `/api/authz/login` with origin
`http://auth:3001` is forwarded to `http://auth:3001/api/authz/login`
with its body unchanged. -/
theorem authzProxy_path_roundtrip :
    (∀ origin rest body,
      forwardViaAuthzProxy origin
          ⟨expressMountSubUrl "/api/authz" ("/api/authz" ++ rest), body⟩ =
        ⟨origin ++ ("/api/authz" ++ rest), body⟩) ∧
      forwardViaAuthzProxy "http://auth:3001"
          ⟨expressMountSubUrl "/api/authz" "/api/authz/login", "payload"⟩ =
        ⟨"http://auth:3001/api/authz/login", "payload"⟩ := by
  constructor
  · intro origin rest body
    simp [forwardViaAuthzProxy, authzProxyReqPathResolver,
      expressMountSubUrl_append]
  · rfl

/-- C9: each proxy error handler writes exactly one structured response —
status 500 with a `message` identifying the failing backend and an `error`
field carrying the triggering error's message — when no response has been
sent yet, and writes nothing at all when one has; in particular, running a
handler twice from a fresh response state leaves exactly the one response
written by the first run. -/
theorem proxyErrorHandler_single_response (err : String) (res : ResState) :
    (res.headersSent = false →
      authProxyErrorHandler err res =
        ⟨true, res.written ++
          [⟨500, "error", "Auth service unavailable", err⟩]⟩) ∧
    (res.headersSent = true → authProxyErrorHandler err res = res) ∧
    (res.headersSent = false →
      iamProxyErrorHandler err res =
        ⟨true, res.written ++
          [⟨500, "error", "IAM service unavailable", err⟩]⟩) ∧
    (res.headersSent = true → iamProxyErrorHandler err res = res) ∧
    (res.headersSent = false →
      inventoryProxyErrorHandler err res =
        ⟨true, res.written ++
          [⟨500, "error", "Inventory service unavailable", err⟩]⟩) ∧
    (res.headersSent = true → inventoryProxyErrorHandler err res = res) ∧
    (authProxyErrorHandler err ⟨false, []⟩).written =
      [⟨500, "error", "Auth service unavailable", err⟩] ∧
    (∀ err2,
      authProxyErrorHandler err2 (authProxyErrorHandler err ⟨false, []⟩) =
        authProxyErrorHandler err ⟨false, []⟩) := by
  refine ⟨?_, ?_, ?_, ?_, ?_, ?_, ?_, ?_⟩
  · intro h
    simp [authProxyErrorHandler, proxyErrorHandlerFor, h]
  · intro h
    simp [authProxyErrorHandler, proxyErrorHandlerFor, h]
  · intro h
    simp [iamProxyErrorHandler, proxyErrorHandlerFor, h]
  · intro h
    simp [iamProxyErrorHandler, proxyErrorHandlerFor, h]
  · intro h
    simp [inventoryProxyErrorHandler, proxyErrorHandlerFor, h]
  · intro h
    simp [inventoryProxyErrorHandler, proxyErrorHandlerFor, h]
  · rfl
  · intro err2
    rfl

theorem proxyErrorHandler_single_response_witness :
    authProxyErrorHandler "connect ECONNREFUSED" ⟨false, []⟩ =
        ⟨true, [⟨500, "error", "Auth service unavailable",
          "connect ECONNREFUSED"⟩]⟩ ∧
      iamProxyErrorHandler "connect ECONNREFUSED" ⟨true, []⟩ = ⟨true, []⟩ := by
  constructor
  · have h := (proxyErrorHandler_single_response "connect ECONNREFUSED"
      ⟨false, []⟩).1 rfl
    simpa using h
  · exact (proxyErrorHandler_single_response "connect ECONNREFUSED"
      ⟨true, []⟩).2.2.2.1 rfl

/-- C10 (code-bug evaluation): a `GET /gateway/health` request does not
receive a 200 response listing the backend origins — the handler
references the undefined constant `KYC_SERVICE_URL`, the resulting
`ReferenceError` reaches the global error handler, and the caller receives
500 "KYC_SERVICE_URL is not defined", whatever the configured service URLs
and whatever the `authorization` header. -/
theorem gatewayHealth_throws (authUrl iamUrl invUrl : String)
    (a : Option String) :
    gatewayApp authUrl iamUrl invUrl "GET" "/gateway/health" a =
        .responded 500 "KYC_SERVICE_URL is not defined" ∧
      gatewayHealthHandler (definedServiceConsts authUrl iamUrl invUrl) =
        .error "KYC_SERVICE_URL is not defined" :=
  ⟨rfl, rfl⟩

/-- C1 (code-bug evaluation): the composition file imports
`gatewayAuthMiddleware` but never mounts it, so no inbound request is ever
subjected to token verification.  A request to the protected path `/admin`
(the classifier marks it non-public) terminates with 404 "Route /admin not
found" — not with an authentication error — for every value of the
`Authorization` header, and a request to `/api/iam/users` is forwarded to
the IAM backend for every value of the `Authorization` header, including
no header at all. -/
theorem gateway_no_auth_enforcement (authUrl iamUrl invUrl : String)
    (a : Option String) :
    isPublicRoute "/admin" = false ∧
      gatewayApp authUrl iamUrl invUrl "GET" "/admin" a =
        .responded 404 "Route /admin not found" ∧
      gatewayApp authUrl iamUrl invUrl "GET" "/api/iam/users" a =
        .forwarded "iam" (iamUrl ++ "/api/iam/users") :=
  ⟨by decide, rfl, rfl⟩

end Gateway
